import Mathlib

/-!
Shallow embedding of the luna-backend recommendation engine
(src/recommendation.py, data model from src/models.py), together with
proofs checking the natural-language specification against it.

Python floats are modelled as real numbers, Python lists as Lean lists
(in particular `User.interests` and `Venue.tags` keep their list nature:
lengths count duplicates, exactly as `len` does in the source), Python
sets as `Finset String`, and the `viewing_history` dict as a partial map
`String → Option ℝ`.  Fallible code (Python code that can raise
`ZeroDivisionError` or `KeyError`) is embedded with `Option`: `none`
models an escaping exception.  Python's `round(x, 2)` (banker's
rounding) is modelled faithfully by `round2` below.
-/

noncomputable section

open Real List

/-- Round-half-to-even on the reals, the behaviour of Python's built-in
`round` for the magnitudes that occur here: at a tie (`Int.fract x = 1/2`)
it picks the even neighbour, otherwise the nearest integer. -/
def pyRound (x : ℝ) : ℤ :=
  if Int.fract x = 1 / 2 then 2 * round (x / 2) else round x

/-- Embedding of Python's `round(x, 2)`. -/
def round2 (x : ℝ) : ℝ := (pyRound (x * 100) : ℝ) / 100

/-- Embedding of Python's `math.radians`. -/
def radians (x : ℝ) : ℝ := x * π / 180

/-- Embedding of Python's `math.atan2` (full four-quadrant case split;
the code below only ever reaches the first and third branches). -/
def atan2 (y x : ℝ) : ℝ :=
  if 0 < x then arctan (y / x)
  else if x < 0 then
    (if 0 ≤ y then arctan (y / x) + π else arctan (y / x) - π)
  else if 0 < y then π / 2
  else if y < 0 then -(π / 2)
  else 0

/-- `models.User` (src/models.py lines 5-12). -/
structure User where
  id : String
  name : String
  latitude : ℝ
  longitude : ℝ
  interests : List String
  preferred_price_range : String
  viewing_history : String → Option ℝ

/-- `models.Venue` (src/models.py lines 14-22). -/
structure Venue where
  id : String
  name : String
  category : String
  latitude : ℝ
  longitude : ℝ
  price_range : String
  tags : List String
  description : String

/-- `models.CompatibilityScore` (src/models.py lines 24-29); the
`shared_interests` list is produced from a Python set, so it is
modelled as a `Finset`. -/
structure CompatibilityScore where
  user_id : String
  user_name : String
  score : ℝ
  shared_interests : Finset String
  distance_km : ℝ

/-- One reason entry of a recommendation.  The Python code stores
human-readable formatted strings; this embedding keeps the data content
of each reason and abstracts the string formatting. -/
inductive Reason where
  | closeBy (distance_km : ℝ)
  | matchesInterests (tags : Finset String)
  | priceFit (tier : String)
  | viewed (seconds : ℝ)
  | friendsInterested (count : ℕ)

/-- `models.VenueRecommendation` (src/models.py lines 31-35). -/
structure VenueRecommendation where
  venue : Venue
  score : ℝ
  reasons : List Reason
  interested_users : List CompatibilityScore

/-- `recommendation.calculate_distance` (src/recommendation.py lines
6-18): haversine distance in kilometres, Earth radius 6371 km. -/
def calculate_distance (lat1 lon1 lat2 lon2 : ℝ) : ℝ :=
  let R : ℝ := 6371
  let lat1_rad := radians lat1
  let lat2_rad := radians lat2
  let delta_lat := radians (lat2 - lat1)
  let delta_lon := radians (lon2 - lon1)
  let a := sin (delta_lat / 2) ^ 2 +
    cos lat1_rad * cos lat2_rad * sin (delta_lon / 2) ^ 2
  let c := 2 * atan2 (Real.sqrt a) (Real.sqrt (1 - a))
  R * c

/-- The `price_ranges` dict of src/recommendation.py line 39; `none`
models a `KeyError` on lookup of any other label. -/
def priceRanges (s : String) : Option ℕ :=
  if s = "budget" then some 1
  else if s = "moderate" then some 2
  else if s = "upscale" then some 3
  else none

/-- `recommendation.calculate_user_compatibility` (src/recommendation.py
lines 20-52).  `none` models an escaping exception: `ZeroDivisionError`
when both interest lists are empty (line 32 divides by
`max(len, len)` unguarded), or `KeyError` when a price label is not in
`price_ranges` (line 40). -/
def calculate_user_compatibility (user1 user2 : User) : Option CompatibilityScore :=
  let shared_interests := user1.interests.toFinset ∩ user2.interests.toFinset
  if max user1.interests.length user2.interests.length = 0 then none
  else
    let interest_score : ℝ :=
      (shared_interests.card : ℝ) / (max user1.interests.length user2.interests.length : ℕ)
    let distance := calculate_distance user1.latitude user1.longitude user2.latitude user2.longitude
    let distance_score := max 0 (1 - distance / 5)
    match priceRanges user1.preferred_price_range, priceRanges user2.preferred_price_range with
    | some p1, some p2 =>
      let price_diff : ℝ := |(p1 : ℝ) - (p2 : ℝ)|
      let price_score := max 0 (1 - price_diff / 2)
      let final_score := (0.4 * interest_score + 0.3 * distance_score + 0.3 * price_score) * 100
      some { user_id := user2.id
             user_name := user2.name
             score := round2 final_score
             shared_interests := shared_interests
             distance_km := round2 distance }
    | _, _ => none

/-- Comparator used to embed Python's stable
`list.sort(key=lambda x: x.score, reverse=True)` on compatibility
scores: descending by score, ties keeping encounter order (core
`List.mergeSort` is stable, like Python's sort). -/
def scoreDescB (a b : CompatibilityScore) : Bool := decide (b.score ≤ a.score)

/-- Comparator embedding the descending sort of recommendations
(src/recommendation.py line 135). -/
def recScoreDescB (a b : VenueRecommendation) : Bool := decide (b.score ≤ a.score)

/-- Sequencing of a fallible computation over a list, in list order:
the embedding of a Python `for` loop that can raise, where `none`
(the exception) escapes from the first failing element. -/
def mapOrNone (f : α → Option β) : List α → Option (List β)
  | [] => some []
  | a :: as =>
    match f a with
    | none => none
    | some b =>
      match mapOrNone f as with
      | none => none
      | some bs => some (b :: bs)

/-- The combined interest-in-a-venue signal of src/recommendation.py
lines 104-112: view-seconds divided by 60 when the venue was viewed,
plus tag overlap divided by the number of venue tags.  (Total version;
in `interestedLoop` the division is guarded because Python raises
`ZeroDivisionError` when `venue.tags` is empty.) -/
def venueSignal (other_user : User) (venue : Venue) : ℝ :=
  (match other_user.viewing_history venue.id with
   | some t => t / 60
   | none => 0) +
  ((other_user.interests.toFinset ∩ venue.tags.toFinset).card : ℝ) / venue.tags.length

/-- The inner loop of `recommend_venues` over `all_users`
(src/recommendation.py lines 100-118), collecting compatible
interested users in traversal order.  `none` models an escaping
exception: `ZeroDivisionError` on an empty tag list (line 112 divides
by `len(venue.tags)` for every other user, before the threshold test),
or an exception escaping from `calculate_user_compatibility`. -/
def interestedLoop (user : User) (venue : Venue) : List User → Option (List CompatibilityScore)
  | [] => some []
  | other_user :: rest =>
    if other_user.id ≠ user.id then
      if venue.tags = [] then none
      else if venueSignal other_user venue > 0.3 then
        match calculate_user_compatibility user other_user with
        | none => none
        | some compatibility =>
          match interestedLoop user venue rest with
          | none => none
          | some l => some (if compatibility.score > 40 then compatibility :: l else l)
      else interestedLoop user venue rest
    else interestedLoop user venue rest

/-- The base (non-social) part of the per-venue score of
src/recommendation.py lines 70-97: the four weighted components, summed
in program order, before the final `round(score, 2)`. -/
def venueBaseScore (user : User) (venue : Venue) : ℝ :=
  25 * max 0 (1 - calculate_distance user.latitude user.longitude venue.latitude venue.longitude / 3) +
  35 * (if user.interests = [] then 0
        else ((user.interests.toFinset ∩ venue.tags.toFinset).card : ℝ) / user.interests.length) +
  (if venue.price_range = user.preferred_price_range then 15 else 0) +
  (match user.viewing_history venue.id with
   | some view_time => 25 * min 1 (view_time / 60)
   | none => 0)

/-- The reasons list accumulated for one venue (src/recommendation.py
lines 77-78, 84-85, 90, 97, 123-125), given the already sorted
interested-users list; the final reason counts `interested_users[:3]`. -/
def venueReasons (user : User) (venue : Venue)
    (interested_sorted : List CompatibilityScore) : List Reason :=
  let distance := calculate_distance user.latitude user.longitude venue.latitude venue.longitude
  let matching_tags := user.interests.toFinset ∩ venue.tags.toFinset
  (if distance < 1 then [Reason.closeBy distance] else []) ++
  (if matching_tags ≠ ∅ then [Reason.matchesInterests matching_tags] else []) ++
  (if venue.price_range = user.preferred_price_range then [Reason.priceFit venue.price_range] else []) ++
  (match user.viewing_history venue.id with
   | some view_time => [Reason.viewed view_time]
   | none => []) ++
  (match interested_sorted with
   | [] => []
   | _ :: _ => [Reason.friendsInterested (interested_sorted.take 3).length])

/-- The body of the per-venue loop of `recommend_venues`
(src/recommendation.py lines 69-132), producing one
`VenueRecommendation` (or an escaping exception). -/
def venueRec (user : User) (all_users : List User) (venue : Venue) : Option VenueRecommendation :=
  match interestedLoop user venue all_users with
  | none => none
  | some interested_users =>
    let interested_sorted := interested_users.mergeSort scoreDescB
    some { venue := venue
           score := round2 (venueBaseScore user venue)
           reasons := venueReasons user venue interested_sorted
           interested_users := interested_sorted.take 5 }

/-- `recommendation.recommend_venues` (src/recommendation.py lines
54-136): score every venue, sort descending by score (Python's stable
sort), return the first `top_n`. -/
def recommend_venues (user : User) (all_venues : List Venue) (all_users : List User)
    (top_n : ℕ) : Option (List VenueRecommendation) :=
  match mapOrNone (venueRec user all_users) all_venues with
  | none => none
  | some recommendations => some ((recommendations.mergeSort recScoreDescB).take top_n)

/-- `recommendation.recommend_people` (src/recommendation.py lines
138-153). -/
def recommend_people (user : User) (all_users : List User)
    (top_n : ℕ) : Option (List CompatibilityScore) :=
  match mapOrNone (calculate_user_compatibility user)
      (all_users.filter (fun ou => ou.id ≠ user.id)) with
  | none => none
  | some compatibilities => some ((compatibilities.mergeSort scoreDescB).take top_n)

/-- The retained interested-users list as the spec describes it (spec
section 4.3 "Social attachment"): among other users, exactly those whose
combined signal exceeds 0.3 and whose compatibility score exceeds 40,
in traversal order.  Stated from the spec's words, to be compared with
`interestedLoop` (the code's loop). -/
def retainedSpec (user : User) (venue : Venue) (all_users : List User) : List CompatibilityScore :=
  (all_users.filter (fun ou => ou.id ≠ user.id)).filterMap (fun ou =>
    if venueSignal ou venue > 0.3 then
      match calculate_user_compatibility user ou with
      | some c => if c.score > 40 then some c else none
      | none => none
    else none)

/-- Concrete querying user used in witnesses. -/
def uA : User :=
  { id := "u1", name := "A", latitude := 0, longitude := 0,
    interests := ["coffee", "art"], preferred_price_range := "moderate",
    viewing_history := fun v => if v = "v1" then some 45 else none }

/-- Concrete second user used in witnesses. -/
def uB : User :=
  { id := "u2", name := "B", latitude := 0, longitude := 0,
    interests := ["coffee", "art"], preferred_price_range := "moderate",
    viewing_history := fun v => if v = "v1" then some 60 else none }

/-- Concrete venue used in witnesses. -/
def vX : Venue :=
  { id := "v1", name := "Cafe", category := "cafe", latitude := 0, longitude := 0,
    price_range := "moderate", tags := ["coffee", "art"], description := "" }

/-- Venue with an empty tag list (for the tag division-by-zero claim). -/
def vT : Venue :=
  { id := "v2", name := "Mystery", category := "bar", latitude := 0, longitude := 0,
    price_range := "moderate", tags := [], description := "" }

/-- User with an empty interest list. -/
def uE1 : User :=
  { id := "e1", name := "E1", latitude := 0, longitude := 0,
    interests := [], preferred_price_range := "moderate",
    viewing_history := fun _ => none }

/-- Second user with an empty interest list. -/
def uE2 : User :=
  { id := "e2", name := "E2", latitude := 0, longitude := 0,
    interests := [], preferred_price_range := "moderate",
    viewing_history := fun _ => none }

/-- User with a duplicated entry in the interests list. -/
def uDup : User :=
  { id := "d1", name := "D", latitude := 0, longitude := 0,
    interests := ["coffee", "coffee"], preferred_price_range := "moderate",
    viewing_history := fun _ => none }

/-- User whose price-tier label is not one of the three known labels. -/
def uBad : User :=
  { id := "b1", name := "Bad", latitude := 0, longitude := 0,
    interests := ["coffee"], preferred_price_range := "luxury",
    viewing_history := fun _ => none }

/-- The user of the spec's concrete venue-scoring scenario
(spec section 8). -/
def specUser : User :=
  { id := "su", name := "S", latitude := 40.7580, longitude := -73.9855,
    interests := ["coffee", "art", "music", "indie"],
    preferred_price_range := "moderate",
    viewing_history := fun v => if v = "venue1" then some 45 else none }

/-- The venue of the spec's concrete venue-scoring scenario. -/
def specVenue : Venue :=
  { id := "venue1", name := "Venue One", category := "cafe",
    latitude := 40.7585, longitude := -73.9850, price_range := "moderate",
    tags := ["coffee", "books", "wifi", "quiet", "art"], description := "" }

/-- The compatibility record produced for `uA` against `uB`. -/
def cAB : CompatibilityScore :=
  { user_id := "u2", user_name := "B", score := 100,
    shared_interests := uA.interests.toFinset ∩ uB.interests.toFinset, distance_km := 0 }

/-- The compatibility record produced for `uB` against `uA`. -/
def cBA : CompatibilityScore :=
  { user_id := "u1", user_name := "A", score := 100,
    shared_interests := uB.interests.toFinset ∩ uA.interests.toFinset, distance_km := 0 }

/-- The recommendation produced for `uA` on venue `vX` among users
`[uA, uB]`. -/
def recW : VenueRecommendation :=
  { venue := vX, score := 93.75,
    reasons := [Reason.closeBy 0,
      Reason.matchesInterests (uA.interests.toFinset ∩ vX.tags.toFinset),
      Reason.priceFit "moderate", Reason.viewed 45, Reason.friendsInterested 1],
    interested_users := [cAB] }

theorem pyRound_bounds (x : ℝ) : x - 1 / 2 ≤ (pyRound x : ℝ) ∧ (pyRound x : ℝ) ≤ x + 1 / 2 := by
  unfold pyRound
  split
  case isTrue h =>
    have hx : x = (⌊x⌋ : ℝ) + 1 / 2 := by
      have h0 := Int.floor_add_fract x
      rw [h] at h0
      linarith
    have h1 : |x / 2 - (round (x / 2) : ℝ)| ≤ 1 / 2 := abs_sub_round (x / 2)
    rw [abs_le] at h1
    have h2 : (⌊x⌋ : ℝ) - 1 / 2 ≤ ((2 * round (x / 2) : ℤ) : ℝ) := by
      push_cast
      linarith
    have h3 : ((2 * round (x / 2) : ℤ) : ℝ) ≤ (⌊x⌋ : ℝ) + 3 / 2 := by
      push_cast
      linarith
    have h4 : ⌊x⌋ ≤ 2 * round (x / 2) := by
      have : (⌊x⌋ - 1 : ℝ) < ((2 * round (x / 2) : ℤ) : ℝ) := by linarith
      have := (by exact_mod_cast this : (⌊x⌋ - 1 : ℤ) < 2 * round (x / 2))
      omega
    have h5 : 2 * round (x / 2) ≤ ⌊x⌋ + 1 := by
      have : ((2 * round (x / 2) : ℤ) : ℝ) < (⌊x⌋ + 2 : ℝ) := by linarith
      have := (by exact_mod_cast this : (2 * round (x / 2) : ℤ) < ⌊x⌋ + 2)
      omega
    constructor
    · have : ((⌊x⌋ : ℤ) : ℝ) ≤ ((2 * round (x / 2) : ℤ) : ℝ) := by exact_mod_cast h4
      push_cast at this ⊢
      linarith
    · have : ((2 * round (x / 2) : ℤ) : ℝ) ≤ ((⌊x⌋ + 1 : ℤ) : ℝ) := by exact_mod_cast h5
      push_cast at this ⊢
      linarith
  case isFalse h =>
    have h1 : |x - (round x : ℝ)| ≤ 1 / 2 := abs_sub_round x
    rw [abs_le] at h1
    constructor <;> linarith [h1.1, h1.2]

theorem pyRound_intCast (n : ℤ) : pyRound (n : ℝ) = n := by
  unfold pyRound
  rw [Int.fract_intCast]
  norm_num

theorem round2_sub_bounds (x : ℝ) : x - 1 / 200 ≤ round2 x ∧ round2 x ≤ x + 1 / 200 := by
  have h := pyRound_bounds (x * 100)
  unfold round2
  constructor <;> [linarith [h.1]; linarith [h.2]]

theorem round2_nonneg {x : ℝ} (h : 0 ≤ x) : 0 ≤ round2 x := by
  have hb := pyRound_bounds (x * 100)
  have h1 : (-1 : ℝ) < (pyRound (x * 100) : ℝ) := by nlinarith [hb.1]
  have h2 : (-1 : ℤ) < pyRound (x * 100) := by exact_mod_cast h1
  have h3 : (0 : ℤ) ≤ pyRound (x * 100) := by omega
  have h4 : (0 : ℝ) ≤ (pyRound (x * 100) : ℝ) := by exact_mod_cast h3
  unfold round2
  positivity

theorem round2_le_100 {x : ℝ} (h : x ≤ 100) : round2 x ≤ 100 := by
  have hb := pyRound_bounds (x * 100)
  have h1 : (pyRound (x * 100) : ℝ) < 10001 := by nlinarith [hb.2]
  have h2 : pyRound (x * 100) < (10001 : ℤ) := by exact_mod_cast h1
  have h3 : pyRound (x * 100) ≤ (10000 : ℤ) := by omega
  have h4 : (pyRound (x * 100) : ℝ) ≤ 10000 := by exact_mod_cast h3
  unfold round2
  linarith

theorem round2_eq_of_mul_eq {x : ℝ} {n : ℤ} (h : x * 100 = (n : ℝ)) :
    round2 x = (n : ℝ) / 100 := by
  unfold round2
  rw [h, pyRound_intCast]

theorem round2_zero : round2 0 = 0 := by
  have h : (0 : ℝ) * 100 = ((0 : ℤ) : ℝ) := by norm_num
  rw [round2_eq_of_mul_eq h]
  norm_num

theorem atan2_nonneg {y x : ℝ} (hy : 0 ≤ y) (hx : 0 ≤ x) : 0 ≤ atan2 y x := by
  unfold atan2
  split
  case isTrue h =>
    rw [← Real.arctan_zero]
    exact Real.arctan_strictMono.monotone (by positivity)
  case isFalse h =>
    rw [if_neg (not_lt.mpr hx)]
    split
    case isTrue h2 => positivity
    case isFalse h2 =>
      rw [if_neg (not_lt.mpr hy)]

theorem atan2_le_pi_div_two {y x : ℝ} (hy : 0 ≤ y) (hx : 0 ≤ x) : atan2 y x ≤ π / 2 := by
  have hpi : 0 < π := Real.pi_pos
  unfold atan2
  split_ifs
  · exact (Real.arctan_lt_pi_div_two _).le
  all_goals linarith

theorem arctan_le_self {x : ℝ} (h : 0 ≤ x) : arctan x ≤ x := by
  have h1 : 0 ≤ arctan x := by
    rw [← Real.arctan_zero]
    exact Real.arctan_strictMono.monotone h
  have h2 := Real.le_tan h1 (Real.arctan_lt_pi_div_two x)
  rwa [Real.tan_arctan] at h2

theorem cos_mul_cos_eq (u v : ℝ) : cos u * cos v = (cos (u - v) + cos (u + v)) / 2 := by
  have h := Real.cos_add_cos (u - v) (u + v)
  have e1 : ((u - v) + (u + v)) / 2 = u := by ring
  have e2 : ((u - v) - (u + v)) / 2 = -v := by ring
  rw [e1, e2, Real.cos_neg] at h
  linarith

/-- The haversine intermediate `a` always lies in `[0,1]`, for arbitrary
real coordinates: neither `math.sqrt(a)` nor `math.sqrt(1-a)` in
src/recommendation.py line 16 ever sees a negative argument. -/
theorem haversine_a_mem (lat1 lon1 lat2 lon2 : ℝ) :
    0 ≤ sin (radians (lat2 - lat1) / 2) ^ 2 +
      cos (radians lat1) * cos (radians lat2) * sin (radians (lon2 - lon1) / 2) ^ 2 ∧
    sin (radians (lat2 - lat1) / 2) ^ 2 +
      cos (radians lat1) * cos (radians lat2) * sin (radians (lon2 - lon1) / 2) ^ 2 ≤ 1 := by
  set u := radians lat1 with hu
  set v := radians lat2 with hv
  have hr : radians (lat2 - lat1) = v - u := by
    rw [hu, hv]
    unfold radians
    ring
  rw [hr]
  have hsin : sin ((v - u) / 2) ^ 2 = 1 / 2 - cos (v - u) / 2 := by
    rw [Real.sin_sq_eq_half_sub]
    congr 2
    ring
  have hcos : cos u * cos v = (cos (u - v) + cos (u + v)) / 2 := cos_mul_cos_eq u v
  have hflip : cos (u - v) = cos (v - u) := by
    rw [← Real.cos_neg (u - v)]
    congr 1
    ring
  set s := sin (radians (lon2 - lon1) / 2) ^ 2 with hs
  have hs0 : 0 ≤ s := sq_nonneg _
  have hs1 : s ≤ 1 := by
    rw [hs]
    have := Real.sin_sq_le_one (radians (lon2 - lon1) / 2)
    linarith
  set c1 := cos (v - u) with hc1
  set c2 := cos (u + v) with hc2
  have hc1a : -1 ≤ c1 := Real.neg_one_le_cos _
  have hc1b : c1 ≤ 1 := Real.cos_le_one _
  have hc2a : -1 ≤ c2 := Real.neg_one_le_cos _
  have hc2b : c2 ≤ 1 := Real.cos_le_one _
  rw [hsin, hcos, hflip]
  constructor
  · nlinarith [mul_nonneg (by linarith : (0:ℝ) ≤ 1 - s) (by linarith : (0:ℝ) ≤ 1 - c1),
      mul_nonneg hs0 (by linarith : (0:ℝ) ≤ 1 + c2)]
  · nlinarith [mul_nonneg (by linarith : (0:ℝ) ≤ 1 - s) (by linarith : (0:ℝ) ≤ 1 + c1),
      mul_nonneg hs0 (by linarith : (0:ℝ) ≤ 1 - c2)]

theorem calculate_distance_nonneg (lat1 lon1 lat2 lon2 : ℝ) :
    0 ≤ calculate_distance lat1 lon1 lat2 lon2 := by
  unfold calculate_distance
  have h := atan2_nonneg (Real.sqrt_nonneg (sin (radians (lat2 - lat1) / 2) ^ 2 +
      cos (radians lat1) * cos (radians lat2) * sin (radians (lon2 - lon1) / 2) ^ 2))
    (Real.sqrt_nonneg (1 - (sin (radians (lat2 - lat1) / 2) ^ 2 +
      cos (radians lat1) * cos (radians lat2) * sin (radians (lon2 - lon1) / 2) ^ 2)))
  positivity

theorem calculate_distance_le (lat1 lon1 lat2 lon2 : ℝ) :
    calculate_distance lat1 lon1 lat2 lon2 ≤ 6371 * π := by
  unfold calculate_distance
  have h := atan2_le_pi_div_two (Real.sqrt_nonneg (sin (radians (lat2 - lat1) / 2) ^ 2 +
      cos (radians lat1) * cos (radians lat2) * sin (radians (lon2 - lon1) / 2) ^ 2))
    (Real.sqrt_nonneg (1 - (sin (radians (lat2 - lat1) / 2) ^ 2 +
      cos (radians lat1) * cos (radians lat2) * sin (radians (lon2 - lon1) / 2) ^ 2)))
  linarith

theorem calculate_distance_symm (lat1 lon1 lat2 lon2 : ℝ) :
    calculate_distance lat1 lon1 lat2 lon2 = calculate_distance lat2 lon2 lat1 lon1 := by
  have h : ∀ a b : ℝ, sin (radians (a - b) / 2) ^ 2 = sin (radians (b - a) / 2) ^ 2 := by
    intro a b
    have e : radians (a - b) / 2 = -(radians (b - a) / 2) := by
      unfold radians
      ring
    rw [e, Real.sin_neg]
    ring
  simp only [calculate_distance]
  rw [h lat2 lat1, h lon2 lon1, mul_comm (cos (radians lat1)) (cos (radians lat2))]

theorem calculate_distance_self (lat lon : ℝ) : calculate_distance lat lon lat lon = 0 := by
  unfold calculate_distance
  have h0 : radians (lat - lat) = 0 := by
    unfold radians
    ring
  have h1 : radians (lon - lon) = 0 := by
    unfold radians
    ring
  rw [h0, h1]
  norm_num [atan2]

/-- The spec's concrete scenario coordinates are less than 0.1 km apart
(in fact less than 0.083 km). -/
theorem specDistance_lt :
    calculate_distance 40.7580 (-73.9855) 40.7585 (-73.9850) < 0.1 := by
  simp only [calculate_distance]
  have e1 : (40.7585 : ℝ) - 40.7580 = 0.0005 := by norm_num
  have e2 : (-73.9850 : ℝ) - -73.9855 = 0.0005 := by norm_num
  rw [e1, e2]
  set t := radians 0.0005 / 2 with ht
  have htpi : t = π * (1 / 720000) := by
    rw [ht]
    unfold radians
    ring
  have ht0 : 0 ≤ t := by
    rw [htpi]
    positivity
  have ht1 : t ≤ 3.15 / 720000 := by
    rw [htpi]
    have := Real.pi_lt_d2
    linarith
  set a := sin t ^ 2 + cos (radians 40.7580) * cos (radians 40.7585) * sin t ^ 2 with ha
  have hs2 : sin t ^ 2 ≤ t ^ 2 := Real.sin_sq_le_sq
  have hs0 : 0 ≤ sin t ^ 2 := sq_nonneg _
  have hc1 : cos (radians 40.7580) ≤ 1 := Real.cos_le_one _
  have hc1' : -1 ≤ cos (radians 40.7580) := Real.neg_one_le_cos _
  have hc2 : cos (radians 40.7585) ≤ 1 := Real.cos_le_one _
  have hc2' : -1 ≤ cos (radians 40.7585) := Real.neg_one_le_cos _
  have ht2 : t ^ 2 ≤ (3.15 / 720000) ^ 2 := pow_le_pow_left₀ ht0 ht1 2
  have haub : a ≤ 4 / 100000000000 := by
    rw [ha]
    nlinarith [mul_le_mul_of_nonneg_right
      (by nlinarith : cos (radians 40.7580) * cos (radians 40.7585) ≤ 1) hs0]
  have halb : 0 ≤ a := by
    rw [ha]
    nlinarith [mul_le_mul_of_nonneg_right
      (by nlinarith : -1 ≤ cos (radians 40.7580) * cos (radians 40.7585)) hs0]
  clear_value a
  have hsa : Real.sqrt a ≤ 0.0000064 := by
    rw [Real.sqrt_le_iff]
    constructor
    · nlinarith [haub]
    · nlinarith [haub]
  have hsb : (0.99 : ℝ) ≤ Real.sqrt (1 - a) := by
    rw [Real.le_sqrt' (by norm_num)]
    nlinarith [haub]
  have hsbpos : 0 < Real.sqrt (1 - a) := lt_of_lt_of_le (by norm_num) hsb
  rw [atan2, if_pos hsbpos]
  have harc : arctan (Real.sqrt a / Real.sqrt (1 - a)) ≤ Real.sqrt a / Real.sqrt (1 - a) :=
    arctan_le_self (by positivity)
  have hdiv : Real.sqrt a / Real.sqrt (1 - a) ≤ 0.0000064 / 0.99 :=
    div_le_div₀ (by norm_num) hsa (by norm_num) hsb
  nlinarith

/-- Every successfully produced compatibility score lies in [0,100]. -/
theorem compat_score_bounds {u1 u2 : User} {c : CompatibilityScore}
    (h : calculate_user_compatibility u1 u2 = some c) : 0 ≤ c.score ∧ c.score ≤ 100 := by
  unfold calculate_user_compatibility at h
  split at h
  · exact absurd h (by simp)
  case isFalse hmax =>
    split at h
    case h_1 p1 p2 hp1 hp2 =>
      rw [Option.some.injEq] at h
      have hc : c.score = round2 ((0.4 *
          ((((u1.interests.toFinset ∩ u2.interests.toFinset).card : ℝ)) /
            ((max u1.interests.length u2.interests.length : ℕ) : ℝ)) +
          0.3 * max 0 (1 - calculate_distance u1.latitude u1.longitude u2.latitude u2.longitude / 5) +
          0.3 * max 0 (1 - |(p1 : ℝ) - (p2 : ℝ)| / 2)) * 100) := by
        rw [← h]
      rw [hc]
      have hmaxpos : 0 < max u1.interests.length u2.interests.length :=
        Nat.pos_of_ne_zero hmax
      have hcard : ((u1.interests.toFinset ∩ u2.interests.toFinset).card : ℝ) ≤
          ((max u1.interests.length u2.interests.length : ℕ) : ℝ) := by
        have h1 : (u1.interests.toFinset ∩ u2.interests.toFinset).card ≤
            max u1.interests.length u2.interests.length :=
          le_trans (Finset.card_le_card Finset.inter_subset_left)
            (le_trans (List.toFinset_card_le u1.interests) (le_max_left _ _))
        exact_mod_cast h1
      have hdenpos : (0 : ℝ) < ((max u1.interests.length u2.interests.length : ℕ) : ℝ) := by
        exact_mod_cast hmaxpos
      have hi0 : (0 : ℝ) ≤
          (((u1.interests.toFinset ∩ u2.interests.toFinset).card : ℝ)) /
            ((max u1.interests.length u2.interests.length : ℕ) : ℝ) := by positivity
      have hi1 : (((u1.interests.toFinset ∩ u2.interests.toFinset).card : ℝ)) /
          ((max u1.interests.length u2.interests.length : ℕ) : ℝ) ≤ 1 :=
        (div_le_one hdenpos).mpr hcard
      have hd0 : (0 : ℝ) ≤
          max 0 (1 - calculate_distance u1.latitude u1.longitude u2.latitude u2.longitude / 5) :=
        le_max_left _ _
      have hd1 : max 0
          (1 - calculate_distance u1.latitude u1.longitude u2.latitude u2.longitude / 5) ≤ 1 := by
        apply max_le (by norm_num)
        have := calculate_distance_nonneg u1.latitude u1.longitude u2.latitude u2.longitude
        linarith
      have hp0 : (0 : ℝ) ≤ max 0 (1 - |(p1 : ℝ) - (p2 : ℝ)| / 2) := le_max_left _ _
      have hp1' : max 0 (1 - |(p1 : ℝ) - (p2 : ℝ)| / 2) ≤ 1 := by
        apply max_le (by norm_num)
        have := abs_nonneg ((p1 : ℝ) - (p2 : ℝ))
        linarith
      constructor
      · apply round2_nonneg
        nlinarith
      · apply round2_le_100
        nlinarith
    case h_2 =>
      exact absurd h (by simp)

/-- The base venue score (before rounding) lies in [0,100] when the
querying user's recorded view durations are non-negative. -/
theorem venueBaseScore_bounds {user : User} {venue : Venue}
    (hist : ∀ v t, user.viewing_history v = some t → 0 ≤ t) :
    0 ≤ venueBaseScore user venue ∧ venueBaseScore user venue ≤ 100 := by
  unfold venueBaseScore
  have hd := calculate_distance_nonneg user.latitude user.longitude venue.latitude venue.longitude
  have hc1a : (0 : ℝ) ≤ 25 * max 0
      (1 - calculate_distance user.latitude user.longitude venue.latitude venue.longitude / 3) := by
    positivity
  have hc1b : 25 * max 0
      (1 - calculate_distance user.latitude user.longitude venue.latitude venue.longitude / 3) ≤ 25 := by
    have : max 0
        (1 - calculate_distance user.latitude user.longitude venue.latitude venue.longitude / 3) ≤ 1 :=
      max_le (by norm_num) (by linarith)
    linarith
  have hc2a : (0 : ℝ) ≤ (if user.interests = [] then (0 : ℝ)
      else ((user.interests.toFinset ∩ venue.tags.toFinset).card : ℝ) / user.interests.length) := by
    split
    · exact le_rfl
    · positivity
  have hc2b : (if user.interests = [] then (0 : ℝ)
      else ((user.interests.toFinset ∩ venue.tags.toFinset).card : ℝ) / user.interests.length) ≤ 1 := by
    split
    · norm_num
    case isFalse hne =>
      have hlen : 0 < user.interests.length := List.length_pos.mpr hne
      have hcard : ((user.interests.toFinset ∩ venue.tags.toFinset).card : ℝ) ≤
          (user.interests.length : ℝ) := by
        exact_mod_cast le_trans (Finset.card_le_card Finset.inter_subset_left)
          (List.toFinset_card_le user.interests)
      have hlen' : (0 : ℝ) < (user.interests.length : ℝ) := by exact_mod_cast hlen
      exact (div_le_one hlen').mpr hcard
  have hc3a : (0 : ℝ) ≤ (if venue.price_range = user.preferred_price_range then (15 : ℝ) else 0) := by
    split <;> norm_num
  have hc3b : (if venue.price_range = user.preferred_price_range then (15 : ℝ) else 0) ≤ 15 := by
    split <;> norm_num
  have hc1a' : (0 : ℝ) ≤ 25 * max 0
      (1 - calculate_distance user.latitude user.longitude venue.latitude venue.longitude / 3) := by
    positivity
  have hc1b' : 25 * max 0
      (1 - calculate_distance user.latitude user.longitude venue.latitude venue.longitude / 3) ≤
      25 := by
    have h1 : max 0
        (1 - calculate_distance user.latitude user.longitude venue.latitude venue.longitude / 3) ≤
        1 := max_le (by norm_num) (by linarith)
    linarith
  have hc2a' : (0 : ℝ) ≤ 35 * (if user.interests = [] then (0 : ℝ)
      else ((user.interests.toFinset ∩ venue.tags.toFinset).card : ℝ) / user.interests.length) :=
    mul_nonneg (by norm_num) hc2a
  have hc2b' : 35 * (if user.interests = [] then (0 : ℝ)
      else ((user.interests.toFinset ∩ venue.tags.toFinset).card : ℝ) / user.interests.length) ≤
      35 := by linarith
  cases hv : user.viewing_history venue.id with
  | none =>
    simp only [hv]
    constructor
    · exact add_nonneg (add_nonneg (add_nonneg hc1a' hc2a') hc3a) le_rfl
    · have hsum := add_le_add (add_le_add (add_le_add hc1b' hc2b') hc3b) (le_refl (0 : ℝ))
      exact le_trans hsum (by norm_num)
  | some t =>
    simp only [hv]
    have ht := hist _ _ hv
    have h4a : (0 : ℝ) ≤ 25 * min 1 (t / 60) := by
      have h0 : (0 : ℝ) ≤ min 1 (t / 60) := le_min (by norm_num) (by positivity)
      linarith
    have h4b : 25 * min 1 (t / 60) ≤ 25 := by
      have h1 : min 1 (t / 60) ≤ 1 := min_le_left _ _
      linarith
    constructor
    · exact add_nonneg (add_nonneg (add_nonneg hc1a' hc2a') hc3a) h4a
    · have hsum := add_le_add (add_le_add (add_le_add hc1b' hc2b') hc3b) h4b
      exact le_trans hsum (by norm_num)

theorem mapOrNone_nil (f : α → Option β) : mapOrNone f [] = some [] := rfl

theorem mapOrNone_length {f : α → Option β} :
    ∀ {l : List α} {l' : List β}, mapOrNone f l = some l' → l'.length = l.length := by
  intro l
  induction l with
  | nil =>
    intro l' h
    simp only [mapOrNone, Option.some.injEq] at h
    simp [← h]
  | cons a as ih =>
    intro l' h
    simp only [mapOrNone] at h
    cases hfa : f a with
    | none => rw [hfa] at h; exact absurd h (by simp)
    | some b =>
      rw [hfa] at h
      cases hrest : mapOrNone f as with
      | none => rw [hrest] at h; exact absurd h (by simp)
      | some bs =>
        rw [hrest] at h
        rw [Option.some.injEq] at h
        rw [← h]
        simp [ih hrest]

theorem mapOrNone_mem {f : α → Option β} :
    ∀ {l : List α} {l' : List β}, mapOrNone f l = some l' →
    ∀ b ∈ l', ∃ a ∈ l, f a = some b := by
  intro l
  induction l with
  | nil =>
    intro l' h
    simp only [mapOrNone, Option.some.injEq] at h
    simp [← h]
  | cons a as ih =>
    intro l' h
    simp only [mapOrNone] at h
    cases hfa : f a with
    | none => rw [hfa] at h; exact absurd h (by simp)
    | some b =>
      rw [hfa] at h
      cases hrest : mapOrNone f as with
      | none => rw [hrest] at h; exact absurd h (by simp)
      | some bs =>
        rw [hrest] at h
        rw [Option.some.injEq] at h
        intro c hc
        rw [← h] at hc
        rcases List.mem_cons.mp hc with hcb | hcbs
        · exact ⟨a, List.mem_cons_self a as, by rw [hfa, hcb]⟩
        · rcases ih hrest c hcbs with ⟨a', ha', hfa'⟩
          exact ⟨a', List.mem_cons_of_mem a ha', hfa'⟩

theorem scoreDescB_trans (a b c : CompatibilityScore)
    (h1 : scoreDescB a b) (h2 : scoreDescB b c) : scoreDescB a c := by
  simp only [scoreDescB, decide_eq_true_eq] at h1 h2 ⊢
  exact le_trans h2 h1

theorem scoreDescB_total (a b : CompatibilityScore) : scoreDescB a b || scoreDescB b a := by
  simp only [scoreDescB, Bool.or_eq_true, decide_eq_true_eq]
  exact le_total b.score a.score

theorem recScoreDescB_trans (a b c : VenueRecommendation)
    (h1 : recScoreDescB a b) (h2 : recScoreDescB b c) : recScoreDescB a c := by
  simp only [recScoreDescB, decide_eq_true_eq] at h1 h2 ⊢
  exact le_trans h2 h1

theorem recScoreDescB_total (a b : VenueRecommendation) :
    recScoreDescB a b || recScoreDescB b a := by
  simp only [recScoreDescB, Bool.or_eq_true, decide_eq_true_eq]
  exact le_total b.score a.score

theorem retainedSpec_cons_self {user : User} {venue : Venue} {ou : User} {rest : List User}
    (hid : ¬ou.id ≠ user.id) :
    retainedSpec user venue (ou :: rest) = retainedSpec user venue rest := by
  simp only [retainedSpec, List.filter_cons, decide_eq_true_eq]
  rw [if_neg hid]

theorem retainedSpec_cons_lowsig {user : User} {venue : Venue} {ou : User} {rest : List User}
    (hid : ou.id ≠ user.id) (hsig : ¬venueSignal ou venue > 0.3) :
    retainedSpec user venue (ou :: rest) = retainedSpec user venue rest := by
  simp only [retainedSpec, List.filter_cons, decide_eq_true_eq]
  rw [if_pos hid, List.filterMap_cons]
  rw [if_neg hsig]

theorem retainedSpec_cons_keep {user : User} {venue : Venue} {ou : User} {rest : List User}
    {comp : CompatibilityScore}
    (hid : ou.id ≠ user.id) (hsig : venueSignal ou venue > 0.3)
    (hc : calculate_user_compatibility user ou = some comp) :
    retainedSpec user venue (ou :: rest) =
      if comp.score > 40 then comp :: retainedSpec user venue rest
      else retainedSpec user venue rest := by
  simp only [retainedSpec, List.filter_cons, decide_eq_true_eq]
  rw [if_pos hid, List.filterMap_cons]
  rw [if_pos hsig, hc]
  have hm : (match some comp with
      | some c => if c.score > 40 then some c else none
      | none => none) = if comp.score > 40 then some comp else none := rfl
  rw [hm]
  by_cases hsc : comp.score > 40
  · rw [if_pos hsc, if_pos hsc]
  · rw [if_neg hsc, if_neg hsc]

/-- When the inner loop of `recommend_venues` completes without raising,
it produces exactly the list the spec describes: other users whose
signal exceeds 0.3 and whose compatibility score exceeds 40, in
traversal order. -/
theorem interestedLoop_eq_retainedSpec (user : User) (venue : Venue) :
    ∀ (us : List User) (l : List CompatibilityScore),
    interestedLoop user venue us = some l → l = retainedSpec user venue us := by
  intro us
  induction us with
  | nil =>
    intro l h
    simp only [interestedLoop, Option.some.injEq] at h
    simp [retainedSpec, ← h]
  | cons ou rest ih =>
    intro l h
    simp only [interestedLoop] at h
    by_cases hid : ou.id ≠ user.id
    · rw [if_pos hid] at h
      by_cases htags : venue.tags = []
      · rw [if_pos htags] at h
        exact absurd h (by simp)
      · rw [if_neg htags] at h
        by_cases hsig : venueSignal ou venue > 0.3
        · rw [if_pos hsig] at h
          cases hc : calculate_user_compatibility user ou with
          | none => rw [hc] at h; exact absurd h (by simp)
          | some comp =>
            rw [hc] at h
            cases hrest : interestedLoop user venue rest with
            | none => rw [hrest] at h; exact absurd h (by simp)
            | some l' =>
              rw [hrest] at h
              rw [Option.some.injEq] at h
              rw [← h, ih l' hrest, retainedSpec_cons_keep hid hsig hc]
        · rw [if_neg hsig] at h
          rw [ih l h, retainedSpec_cons_lowsig hid hsig]
    · rw [if_neg hid] at h
      rw [ih l h, retainedSpec_cons_self hid]

theorem round2_hundred : round2 100 = 100 := by
  rw [round2_eq_of_mul_eq (show (100 : ℝ) * 100 = ((10000 : ℤ) : ℝ) by norm_num)]
  norm_num

/-- Shape of a successful run of `calculate_user_compatibility`. -/
theorem compat_eq_of (u1 u2 : User) (p1 p2 : ℕ)
    (hne : ¬max u1.interests.length u2.interests.length = 0)
    (hp1 : priceRanges u1.preferred_price_range = some p1)
    (hp2 : priceRanges u2.preferred_price_range = some p2) :
    calculate_user_compatibility u1 u2 = some
      { user_id := u2.id, user_name := u2.name,
        score := round2 ((0.4 * (((u1.interests.toFinset ∩ u2.interests.toFinset).card : ℝ) /
            ((max u1.interests.length u2.interests.length : ℕ) : ℝ)) +
          0.3 * max 0 (1 - calculate_distance u1.latitude u1.longitude u2.latitude u2.longitude / 5) +
          0.3 * max 0 (1 - |(p1 : ℝ) - (p2 : ℝ)| / 2)) * 100),
        shared_interests := u1.interests.toFinset ∩ u2.interests.toFinset,
        distance_km :=
          round2 (calculate_distance u1.latitude u1.longitude u2.latitude u2.longitude) } := by
  unfold calculate_user_compatibility
  rw [if_neg hne, hp1, hp2]

theorem compat_uAB : calculate_user_compatibility uA uB = some cAB := by
  rw [compat_eq_of uA uB 2 2 (by decide) rfl rfl]
  refine congrArg some ?_
  have hd : calculate_distance uA.latitude uA.longitude uB.latitude uB.longitude = 0 :=
    calculate_distance_self 0 0
  have hcard : (uA.interests.toFinset ∩ uB.interests.toFinset).card = 2 := by decide
  have hlen : (max uA.interests.length uB.interests.length : ℕ) = 2 := by decide
  simp only [cAB]
  rw [CompatibilityScore.mk.injEq]
  refine ⟨rfl, rfl, ?_, rfl, ?_⟩
  · rw [hd, hcard, hlen]
    rw [max_eq_right (by norm_num : (0:ℝ) ≤ 1 - 0 / 5),
      max_eq_right (by push_cast; norm_num : (0:ℝ) ≤ 1 - |((2:ℕ) : ℝ) - ((2:ℕ) : ℝ)| / 2)]
    rw [show (0.4 * (((2:ℕ) : ℝ) / ((2:ℕ) : ℝ)) + 0.3 * (1 - 0 / 5) +
        0.3 * (1 - |((2:ℕ) : ℝ) - ((2:ℕ) : ℝ)| / 2)) * 100 = 100 by push_cast; norm_num]
    exact round2_hundred
  · rw [hd]
    exact round2_zero

theorem compat_uBA : calculate_user_compatibility uB uA = some cBA := by
  rw [compat_eq_of uB uA 2 2 (by decide) rfl rfl]
  refine congrArg some ?_
  have hd : calculate_distance uB.latitude uB.longitude uA.latitude uA.longitude = 0 :=
    calculate_distance_self 0 0
  have hcard : (uB.interests.toFinset ∩ uA.interests.toFinset).card = 2 := by decide
  have hlen : (max uB.interests.length uA.interests.length : ℕ) = 2 := by decide
  simp only [cBA]
  rw [CompatibilityScore.mk.injEq]
  refine ⟨rfl, rfl, ?_, rfl, ?_⟩
  · rw [hd, hcard, hlen]
    rw [max_eq_right (by norm_num : (0:ℝ) ≤ 1 - 0 / 5),
      max_eq_right (by push_cast; norm_num : (0:ℝ) ≤ 1 - |((2:ℕ) : ℝ) - ((2:ℕ) : ℝ)| / 2)]
    rw [show (0.4 * (((2:ℕ) : ℝ) / ((2:ℕ) : ℝ)) + 0.3 * (1 - 0 / 5) +
        0.3 * (1 - |((2:ℕ) : ℝ) - ((2:ℕ) : ℝ)| / 2)) * 100 = 100 by push_cast; norm_num]
    exact round2_hundred
  · rw [hd]
    exact round2_zero

theorem venueSignal_uB_vX : venueSignal uB vX > 0.3 := by
  have h1 : uB.viewing_history vX.id = some 60 := rfl
  have h2 : (uB.interests.toFinset ∩ vX.tags.toFinset).card = 2 := by decide
  have h3 : vX.tags.length = 2 := rfl
  unfold venueSignal
  rw [h1, h2, h3]
  push_cast
  norm_num

theorem interestedLoop_eval : interestedLoop uA vX [uA, uB] = some [cAB] := by
  rw [show interestedLoop uA vX [uA, uB] = interestedLoop uA vX [uB] from by
    rw [interestedLoop, if_neg (by decide)]]
  rw [interestedLoop]
  rw [if_pos (by decide : uB.id ≠ uA.id), if_neg (by decide : ¬vX.tags = []),
    if_pos venueSignal_uB_vX, compat_uAB]
  show some (if cAB.score > 40 then cAB :: ([] : List CompatibilityScore) else []) = some [cAB]
  rw [if_pos (show cAB.score > 40 from by
    rw [show cAB.score = 100 from rfl]
    norm_num)]

theorem venueBaseScore_uA_vX : venueBaseScore uA vX = 93.75 := by
  unfold venueBaseScore
  have hd : calculate_distance uA.latitude uA.longitude vX.latitude vX.longitude = 0 :=
    calculate_distance_self 0 0
  rw [hd]
  rw [if_neg (by decide : ¬uA.interests = [])]
  rw [show (uA.interests.toFinset ∩ vX.tags.toFinset).card = 2 from by decide]
  rw [show uA.interests.length = 2 from rfl]
  rw [if_pos (show vX.price_range = uA.preferred_price_range from rfl)]
  rw [show uA.viewing_history vX.id = some 45 from rfl]
  rw [max_eq_right (by norm_num : (0:ℝ) ≤ 1 - 0 / 3)]
  show 25 * (1 - 0 / 3) + 35 * (((2:ℕ) : ℝ) / ((2:ℕ) : ℝ)) + 15 +
    25 * min 1 ((45 : ℝ) / 60) = 93.75
  rw [min_eq_right (by norm_num : (45 : ℝ) / 60 ≤ 1)]
  push_cast
  norm_num

theorem venueReasons_eval : venueReasons uA vX [cAB] = recW.reasons := by
  simp only [venueReasons]
  have hd : calculate_distance uA.latitude uA.longitude vX.latitude vX.longitude = 0 :=
    calculate_distance_self 0 0
  rw [hd]
  rw [if_pos (by norm_num : (0:ℝ) < 1)]
  rw [if_pos (by decide : uA.interests.toFinset ∩ vX.tags.toFinset ≠ ∅)]
  rw [if_pos (show vX.price_range = uA.preferred_price_range from rfl)]
  rw [show uA.viewing_history vX.id = some 45 from rfl]
  rfl

theorem venueRec_eval : venueRec uA [uA, uB] vX = some recW := by
  unfold venueRec
  rw [interestedLoop_eval]
  show some (VenueRecommendation.mk vX (round2 (venueBaseScore uA vX))
    (venueReasons uA vX ([cAB].mergeSort scoreDescB))
    (List.take 5 ([cAB].mergeSort scoreDescB))) = some recW
  rw [List.mergeSort_singleton]
  refine congrArg some ?_
  rw [VenueRecommendation.mk.injEq]
  refine ⟨rfl, ?_, ?_, rfl⟩
  · rw [venueBaseScore_uA_vX]
    rw [round2_eq_of_mul_eq (show (93.75 : ℝ) * 100 = ((9375 : ℤ) : ℝ) by norm_num)]
    rw [show recW.score = 93.75 from rfl]
    norm_num
  · exact venueReasons_eval

theorem recommend_venues_eval (n : ℕ) (hn : 1 ≤ n) :
    recommend_venues uA [vX] [uA, uB] n = some [recW] := by
  unfold recommend_venues
  rw [show mapOrNone (venueRec uA [uA, uB]) [vX] = some [recW] from by
    simp only [mapOrNone]
    rw [venueRec_eval]]
  show some (List.take n ([recW].mergeSort recScoreDescB)) = some [recW]
  rw [List.mergeSort_singleton]
  rw [List.take_of_length_le (by simpa using hn)]

/-- An unknown price label makes `calculate_user_compatibility` fail
(Python: `KeyError`; or, if both interest lists are also empty, the
earlier `ZeroDivisionError`) — there is no fallback. -/
theorem compat_none_of_invalid {u1 u2 : User}
    (h : priceRanges u1.preferred_price_range = none ∨
      priceRanges u2.preferred_price_range = none) :
    calculate_user_compatibility u1 u2 = none := by
  unfold calculate_user_compatibility
  split
  · rfl
  · rcases h with h | h
    · rw [h]
    · cases h1 : priceRanges u1.preferred_price_range with
      | none => rfl
      | some p => rw [h]

/-- Inversion of a successful run of `calculate_user_compatibility`. -/
theorem compat_inv {u1 u2 : User} {c : CompatibilityScore}
    (h : calculate_user_compatibility u1 u2 = some c) :
    ∃ p1 p2, priceRanges u1.preferred_price_range = some p1 ∧
      priceRanges u2.preferred_price_range = some p2 ∧
      ¬max u1.interests.length u2.interests.length = 0 ∧
      c = CompatibilityScore.mk u2.id u2.name
        (round2 ((0.4 * (((u1.interests.toFinset ∩ u2.interests.toFinset).card : ℝ) /
            ((max u1.interests.length u2.interests.length : ℕ) : ℝ)) +
          0.3 * max 0 (1 - calculate_distance u1.latitude u1.longitude u2.latitude u2.longitude / 5) +
          0.3 * max 0 (1 - |(p1 : ℝ) - (p2 : ℝ)| / 2)) * 100))
        (u1.interests.toFinset ∩ u2.interests.toFinset)
        (round2 (calculate_distance u1.latitude u1.longitude u2.latitude u2.longitude)) := by
  unfold calculate_user_compatibility at h
  split at h
  · exact absurd h (by simp)
  case isFalse hmax =>
    split at h
    case h_1 p1 p2 hp1 hp2 =>
      rw [Option.some.injEq] at h
      exact ⟨p1, p2, hp1, hp2, hmax, h.symm⟩
    case h_2 =>
      exact absurd h (by simp)

/-- Inversion of a successful run of the per-venue loop body. -/
theorem venueRec_inv {u : User} {us : List User} {venue : Venue} {rec : VenueRecommendation}
    (h : venueRec u us venue = some rec) :
    ∃ interested, interestedLoop u venue us = some interested ∧
      rec = VenueRecommendation.mk venue (round2 (venueBaseScore u venue))
              (venueReasons u venue (interested.mergeSort scoreDescB))
              ((interested.mergeSort scoreDescB).take 5) := by
  unfold venueRec at h
  cases hl : interestedLoop u venue us with
  | none => rw [hl] at h; exact absurd h (by simp)
  | some interested =>
    rw [hl] at h
    rw [Option.some.injEq] at h
    exact ⟨interested, rfl, h.symm⟩

theorem venueRec_nil_users (u : User) (v : Venue) :
    venueRec u [] v = some (VenueRecommendation.mk v (round2 (venueBaseScore u v))
      (venueReasons u v []) []) := by
  unfold venueRec
  rw [show interestedLoop u v [] = some [] from rfl]
  show some (VenueRecommendation.mk v (round2 (venueBaseScore u v))
    (venueReasons u v (([] : List CompatibilityScore).mergeSort scoreDescB))
    (List.take 5 (([] : List CompatibilityScore).mergeSort scoreDescB))) = _
  rw [List.mergeSort_nil]
  rfl

theorem venueReasons_no_friends (u : User) (venue : Venue) (k : ℕ) :
    Reason.friendsInterested k ∉ venueReasons u venue [] := by
  simp only [venueReasons]
  cases hv : u.viewing_history venue.id <;>
    simp only [hv] <;> split_ifs <;> simp

theorem venueReasons_friends_mem (u : User) (venue : Venue)
    {l : List CompatibilityScore} (hl : l ≠ []) :
    Reason.friendsInterested (l.take 3).length ∈ venueReasons u venue l := by
  simp only [venueReasons]
  cases l with
  | nil => exact absurd rfl hl
  | cons c cs =>
    refine List.mem_append.mpr (Or.inr ?_)
    simp

theorem mergeSort_sorted_desc (l : List CompatibilityScore) :
    (l.mergeSort scoreDescB).Pairwise (fun a b => b.score ≤ a.score) := by
  have h := List.sorted_mergeSort scoreDescB_trans scoreDescB_total l
  exact h.imp (fun hab => by simpa [scoreDescB] using hab)

theorem mapOrNone_none_of_mem {f : α → Option β} :
    ∀ {l : List α} {a : α}, a ∈ l → f a = none → mapOrNone f l = none := by
  intro l
  induction l with
  | nil => intro a ha; exact absurd ha (by simp)
  | cons x xs ih =>
    intro a ha hfa
    simp only [mapOrNone]
    rcases List.mem_cons.mp ha with rfl | ha'
    · rw [hfa]
    · cases hfx : f x with
      | none => rfl
      | some b => rw [ih ha' hfa]

theorem recommend_people_none_of_invalid (u ou : User) (users : List User) (n : ℕ)
    (hmem : ou ∈ users) (hid : ou.id ≠ u.id)
    (hinv : priceRanges u.preferred_price_range = none ∨
      priceRanges ou.preferred_price_range = none) :
    recommend_people u users n = none := by
  unfold recommend_people
  have hmem2 : ou ∈ users.filter (fun x => x.id ≠ u.id) :=
    List.mem_filter.mpr ⟨hmem, by simpa using hid⟩
  rw [mapOrNone_none_of_mem hmem2 (compat_none_of_invalid hinv)]

theorem recommend_venues_none_of_invalid (u ou : User) (venue : Venue) (n : ℕ)
    (hid : ou.id ≠ u.id) (hsig : venueSignal ou venue > 0.3)
    (hinv : priceRanges u.preferred_price_range = none ∨
      priceRanges ou.preferred_price_range = none) :
    recommend_venues u [venue] [ou] n = none := by
  have hloop : interestedLoop u venue [ou] = none := by
    rw [interestedLoop, if_pos hid]
    by_cases htags : venue.tags = []
    · rw [if_pos htags]
    · rw [if_neg htags, if_pos hsig, compat_none_of_invalid hinv]
  unfold recommend_venues
  rw [show mapOrNone (venueRec u [ou]) [venue] = none from by
    simp only [mapOrNone]
    rw [show venueRec u [ou] venue = none from by
      unfold venueRec
      rw [hloop]]]

theorem venueBaseScore_spec :
    venueBaseScore specUser specVenue =
      25 * max 0 (1 - calculate_distance specUser.latitude specUser.longitude
        specVenue.latitude specVenue.longitude / 3) + 51.25 := by
  unfold venueBaseScore
  rw [if_neg (by decide : ¬specUser.interests = [])]
  rw [show (specUser.interests.toFinset ∩ specVenue.tags.toFinset).card = 2 from by decide]
  rw [show specUser.interests.length = 4 from rfl]
  rw [if_pos (show specVenue.price_range = specUser.preferred_price_range from rfl)]
  rw [show specUser.viewing_history specVenue.id = some 45 from rfl]
  show 25 * max 0 (1 - calculate_distance specUser.latitude specUser.longitude
      specVenue.latitude specVenue.longitude / 3) + 35 * (((2:ℕ) : ℝ) / ((4:ℕ) : ℝ)) + 15 +
    25 * min 1 ((45 : ℝ) / 60) = _
  rw [min_eq_right (by norm_num : (45 : ℝ) / 60 ≤ 1)]
  push_cast
  ring_nf

theorem venueSignal_uBad_vX : venueSignal uBad vX > 0.3 := by
  have h1 : uBad.viewing_history vX.id = none := rfl
  have h2 : (uBad.interests.toFinset ∩ vX.tags.toFinset).card = 1 := by decide
  have h3 : vX.tags.length = 2 := rfl
  unfold venueSignal
  rw [h1, h2, h3]
  push_cast
  norm_num

/-- C2: the claim says that for two users with empty interest sets
`calculate_user_compatibility` does not raise and returns an
interest contribution of 0.  The code divides by
`max(len(user1.interests), len(user2.interests))` with no guard
(src/recommendation.py line 32), so for two empty-interest users it
raises `ZeroDivisionError` (here: returns `none`), contradicting the
claim; the spec itself marks the special-casing as a correctness
requirement, so this is a bug in the code. -/
theorem C2_empty_interest_division_raises :
    calculate_user_compatibility uE1 uE2 = none := by
  unfold calculate_user_compatibility
  rw [if_pos (by decide)]

/-- C6: the claim says a venue with an empty tag list does not make
`recommend_venues` raise while computing another user's
interest-in-this-venue signal.  The code divides by `len(venue.tags)`
unconditionally for every other user (src/recommendation.py line 112),
so with a tagless venue and at least one other user it raises
`ZeroDivisionError` (here: returns `none`), contradicting the claim;
the spec marks the special-casing as required, so this is a bug in the
code. -/
theorem C6_empty_tags_division_raises :
    recommend_venues uA [vT] [uA, uB] 5 = none := by
  have hloop : interestedLoop uA vT [uA, uB] = none := by
    rw [show interestedLoop uA vT [uA, uB] = interestedLoop uA vT [uB] from by
      rw [interestedLoop, if_neg (by decide)]]
    rw [interestedLoop, if_pos (by decide : uB.id ≠ uA.id),
      if_pos (show vT.tags = [] from rfl)]
  unfold recommend_venues
  rw [show mapOrNone (venueRec uA [uA, uB]) [vT] = none from by
    simp only [mapOrNone]
    rw [show venueRec uA [uA, uB] vT = none from by
      unfold venueRec
      rw [hloop]]]

/-- C7: `calculate_distance` is symmetric, zero on identical points,
non-negative, and bounded by `6371 * π` (so finite); moreover the
haversine intermediate always lies in `[0,1]`, so the two square roots
in the source are applied within their domain (no failure modes). -/
theorem C7_distance_properties :
    (∀ lat1 lon1 lat2 lon2 : ℝ,
      calculate_distance lat1 lon1 lat2 lon2 = calculate_distance lat2 lon2 lat1 lon1) ∧
    (∀ lat lon : ℝ, calculate_distance lat lon lat lon = 0) ∧
    (∀ lat1 lon1 lat2 lon2 : ℝ, 0 ≤ calculate_distance lat1 lon1 lat2 lon2) ∧
    (∀ lat1 lon1 lat2 lon2 : ℝ, calculate_distance lat1 lon1 lat2 lon2 ≤ 6371 * π) ∧
    (∀ lat1 lon1 lat2 lon2 : ℝ,
      0 ≤ sin (radians (lat2 - lat1) / 2) ^ 2 +
        cos (radians lat1) * cos (radians lat2) * sin (radians (lon2 - lon1) / 2) ^ 2 ∧
      sin (radians (lat2 - lat1) / 2) ^ 2 +
        cos (radians lat1) * cos (radians lat2) * sin (radians (lon2 - lon1) / 2) ^ 2 ≤ 1) :=
  ⟨calculate_distance_symm, calculate_distance_self, calculate_distance_nonneg,
    calculate_distance_le, haversine_a_mem⟩

/-- C9: a price-tier label outside {budget, moderate, upscale} makes
`calculate_user_compatibility` raise a lookup error (here: `none`) with
no internal validation or fallback, and both `recommend_people` and
`recommend_venues` propagate the failure for such a user (for
`recommend_venues`, when the user's venue-interest signal passes the
0.3 threshold so the compatibility call is reached). -/
theorem C9_unknown_price_label :
    (∀ u1 u2 : User,
      priceRanges u1.preferred_price_range = none ∨
        priceRanges u2.preferred_price_range = none →
      calculate_user_compatibility u1 u2 = none) ∧
    (∀ (u ou : User) (users : List User) (n : ℕ), ou ∈ users → ou.id ≠ u.id →
      (priceRanges u.preferred_price_range = none ∨
        priceRanges ou.preferred_price_range = none) →
      recommend_people u users n = none) ∧
    (∀ (u ou : User) (venue : Venue) (n : ℕ), ou.id ≠ u.id →
      venueSignal ou venue > 0.3 →
      (priceRanges u.preferred_price_range = none ∨
        priceRanges ou.preferred_price_range = none) →
      recommend_venues u [venue] [ou] n = none) :=
  ⟨fun _ _ h => compat_none_of_invalid h,
   fun u ou users n hmem hid hinv =>
     recommend_people_none_of_invalid u ou users n hmem hid hinv,
   recommend_venues_none_of_invalid⟩

/-- Witness for C9 at a concrete user whose label is "luxury". -/
theorem C9_witness :
    calculate_user_compatibility uBad uA = none ∧
    recommend_people uA [uA, uBad] 10 = none ∧
    recommend_venues uA [vX] [uBad] 5 = none :=
  ⟨C9_unknown_price_label.1 uBad uA (Or.inl (by decide)),
   C9_unknown_price_label.2.1 uA uBad [uA, uBad] 10 (by simp) (by decide) (Or.inr (by decide)),
   C9_unknown_price_label.2.2 uA uBad vX 5 (by decide) venueSignal_uBad_vX
     (Or.inr (by decide))⟩

/-- C3: every compatibility score the scorer successfully produces lies
in [0,100], and when `recommend_venues` succeeds (given non-negative
recorded view durations for the querying user) every returned
recommendation's score lies in [0,100]. -/
theorem C3_scores_within_bounds :
    (∀ (u1 u2 : User) (c : CompatibilityScore),
      calculate_user_compatibility u1 u2 = some c → 0 ≤ c.score ∧ c.score ≤ 100) ∧
    (∀ (u : User) (venues : List Venue) (users : List User) (n : ℕ)
      (recs : List VenueRecommendation),
      (∀ v t, u.viewing_history v = some t → 0 ≤ t) →
      recommend_venues u venues users n = some recs →
      ∀ rec ∈ recs, 0 ≤ rec.score ∧ rec.score ≤ 100) := by
  constructor
  · exact fun u1 u2 c h => compat_score_bounds h
  · intro u venues users n recs hist h rec hrec
    unfold recommend_venues at h
    cases hm : mapOrNone (venueRec u users) venues with
    | none => rw [hm] at h; exact absurd h (by simp)
    | some recs0 =>
      rw [hm] at h
      rw [Option.some.injEq] at h
      rw [← h] at hrec
      have hrec1 : rec ∈ recs0.mergeSort recScoreDescB :=
        (List.take_sublist _ _).subset hrec
      have hrec2 : rec ∈ recs0 := List.mem_mergeSort.mp hrec1
      rcases mapOrNone_mem hm rec hrec2 with ⟨venue, _, hvr⟩
      rcases venueRec_inv hvr with ⟨interested, _, heq⟩
      rw [heq]
      have hb := @venueBaseScore_bounds u venue hist
      exact ⟨round2_nonneg hb.1, round2_le_100 hb.2⟩

/-- Witness for C3 on concrete data. -/
theorem C3_witness :
    (0 ≤ cAB.score ∧ cAB.score ≤ 100) ∧ (0 ≤ recW.score ∧ recW.score ≤ 100) := by
  constructor
  · exact C3_scores_within_bounds.1 uA uB cAB compat_uAB
  · refine C3_scores_within_bounds.2 uA [vX] [uA, uB] 5 [recW] ?_
      (recommend_venues_eval 5 (by norm_num)) recW (by simp)
    intro v t h
    simp only [uA] at h
    split at h
    · rw [Option.some.injEq] at h
      rw [← h]
      norm_num
    · exact absurd h (by simp)

/-- C5: `recommend_venues` with cap `n` returns exactly the first `n`
elements of the full (cap = number of venues) run, hence
`min n |V|` elements. -/
theorem C5_truncation_law :
    ∀ (u : User) (V : List Venue) (U : List User) (n : ℕ),
    recommend_venues u V U n = (recommend_venues u V U V.length).map (List.take n) ∧
    (∀ l, recommend_venues u V U n = some l → l.length = min n V.length) := by
  intro u V U n
  constructor
  · unfold recommend_venues
    cases hm : mapOrNone (venueRec u U) V with
    | none => rfl
    | some recs =>
      have hlen : (recs.mergeSort recScoreDescB).length = V.length := by
        rw [List.length_mergeSort]
        exact mapOrNone_length hm
      show some (List.take n (recs.mergeSort recScoreDescB)) =
        (some (List.take V.length (recs.mergeSort recScoreDescB))).map (List.take n)
      rw [List.take_of_length_le (le_of_eq hlen)]
      rfl
  · intro l hl
    unfold recommend_venues at hl
    cases hm : mapOrNone (venueRec u U) V with
    | none => rw [hm] at hl; exact absurd hl (by simp)
    | some recs =>
      rw [hm] at hl
      rw [Option.some.injEq] at hl
      rw [← hl, List.length_take, List.length_mergeSort, mapOrNone_length hm]

/-- Witness for C5 on concrete data. -/
theorem C5_witness :
    (recommend_venues uA [vX] [uA, uB] 1 =
      (recommend_venues uA [vX] [uA, uB] ([vX] : List Venue).length).map (List.take 1)) ∧
    ([recW] : List VenueRecommendation).length = min 1 ([vX] : List Venue).length :=
  ⟨(C5_truncation_law uA [vX] [uA, uB] 1).1,
   (C5_truncation_law uA [vX] [uA, uB] 1).2 [recW] (recommend_venues_eval 1 (by norm_num))⟩

/-- C10: the compatibility score and the shared-interest set are
symmetric in the two users whenever both directions succeed, even
though the returned record names only the second user. -/
theorem C10_compat_symmetric :
    ∀ (u1 u2 : User) (c1 c2 : CompatibilityScore),
    calculate_user_compatibility u1 u2 = some c1 →
    calculate_user_compatibility u2 u1 = some c2 →
    c1.score = c2.score ∧ c1.shared_interests = c2.shared_interests := by
  intro u1 u2 c1 c2 h1 h2
  rcases compat_inv h1 with ⟨p1, p2, hp1, hp2, hmax1, he1⟩
  rcases compat_inv h2 with ⟨q1, q2, hq1, hq2, hmax2, he2⟩
  have hq1p : q1 = p2 := Option.some.inj (hq1.symm.trans hp2)
  have hq2p : q2 = p1 := Option.some.inj (hq2.symm.trans hp1)
  rw [hq1p, hq2p] at he2
  rw [he1, he2]
  constructor
  · show round2 _ = round2 _
    congr 1
    rw [Finset.inter_comm u1.interests.toFinset u2.interests.toFinset,
      Nat.max_comm u1.interests.length u2.interests.length,
      calculate_distance_symm u1.latitude u1.longitude u2.latitude u2.longitude,
      abs_sub_comm ((p2 : ℝ)) ((p1 : ℝ))]
  · exact Finset.inter_comm _ _

/-- Witness for C10 on concrete data. -/
theorem C10_witness :
    cAB.score = cBA.score ∧ cAB.shared_interests = cBA.shared_interests :=
  C10_compat_symmetric uA uB cAB cBA compat_uAB compat_uBA

/-- C8 counterexample: the claim fails as stated.  A user whose interest
list contains a duplicate ("coffee" twice) has a non-empty interest set
but self-compatibility score 80, not 100, because the code divides the
deduplicated intersection size by the raw list length
(src/recommendation.py line 32); and a user with an empty interest list
makes `calculate_user_compatibility(u, u)` raise rather than be
well-defined. -/
theorem C8_selfcompat_counterexample :
    Option.map CompatibilityScore.score (calculate_user_compatibility uDup uDup) = some 80 ∧
    Option.map CompatibilityScore.score (calculate_user_compatibility uDup uDup) ≠ some 100 ∧
    uDup.interests ≠ [] ∧
    calculate_user_compatibility uE1 uE1 = none := by
  have h80 : Option.map CompatibilityScore.score
      (calculate_user_compatibility uDup uDup) = some 80 := by
    rw [compat_eq_of uDup uDup 2 2 (by decide) rfl rfl]
    show some (round2 ((0.4 * (((uDup.interests.toFinset ∩ uDup.interests.toFinset).card : ℝ) /
        ((max uDup.interests.length uDup.interests.length : ℕ) : ℝ)) +
      0.3 * max 0 (1 - calculate_distance uDup.latitude uDup.longitude
        uDup.latitude uDup.longitude / 5) +
      0.3 * max 0 (1 - |((2:ℕ) : ℝ) - ((2:ℕ) : ℝ)| / 2)) * 100)) = some 80
    have hd : calculate_distance uDup.latitude uDup.longitude uDup.latitude uDup.longitude = 0 :=
      calculate_distance_self 0 0
    rw [hd, show (uDup.interests.toFinset ∩ uDup.interests.toFinset).card = 1 from by decide,
      show (max uDup.interests.length uDup.interests.length : ℕ) = 2 from by decide]
    rw [max_eq_right (by norm_num : (0:ℝ) ≤ 1 - 0 / 5),
      max_eq_right (by push_cast; norm_num : (0:ℝ) ≤ 1 - |((2:ℕ) : ℝ) - ((2:ℕ) : ℝ)| / 2)]
    rw [show (0.4 * (((1:ℕ) : ℝ) / ((2:ℕ) : ℝ)) + 0.3 * (1 - 0 / 5) +
        0.3 * (1 - |((2:ℕ) : ℝ) - ((2:ℕ) : ℝ)| / 2)) * 100 = 80 by push_cast; norm_num]
    rw [round2_eq_of_mul_eq (show (80 : ℝ) * 100 = ((8000 : ℤ) : ℝ) by norm_num)]
    norm_num
  refine ⟨h80, ?_, by decide, ?_⟩
  · rw [h80]
    intro hcontra
    rw [Option.some.injEq] at hcontra
    norm_num at hcontra
  · unfold calculate_user_compatibility
    rw [if_pos (by decide)]

/-- C8 (amended): for every user whose interest list is non-empty and
whose price label is one of the three known tiers, self-compatibility
is well-defined with shared interests equal to the user's full interest
set and distance 0; if additionally the interest list has no duplicates
the score is 100. -/
theorem C8_selfcompat_amended :
    ∀ u : User, u.interests ≠ [] →
    (∃ p, priceRanges u.preferred_price_range = some p) →
    ∃ c, calculate_user_compatibility u u = some c ∧
      c.shared_interests = u.interests.toFinset ∧
      c.distance_km = 0 ∧
      (u.interests.Nodup → c.score = 100) := by
  intro u hne hp
  rcases hp with ⟨p, hp⟩
  have hlen : ¬u.interests.length = 0 := fun h0 => hne (List.length_eq_zero.mp h0)
  have hmax : ¬max u.interests.length u.interests.length = 0 := by
    rw [Nat.max_self]
    exact hlen
  refine ⟨_, compat_eq_of u u p p hmax hp hp, ?_, ?_, ?_⟩
  · exact Finset.inter_self _
  · show round2 (calculate_distance u.latitude u.longitude u.latitude u.longitude) = 0
    rw [calculate_distance_self]
    exact round2_zero
  · intro hnodup
    show round2 ((0.4 * (((u.interests.toFinset ∩ u.interests.toFinset).card : ℝ) /
        ((max u.interests.length u.interests.length : ℕ) : ℝ)) +
      0.3 * max 0 (1 - calculate_distance u.latitude u.longitude u.latitude u.longitude / 5) +
      0.3 * max 0 (1 - |(p : ℝ) - (p : ℝ)| / 2)) * 100) = 100
    have hcard : (u.interests.toFinset ∩ u.interests.toFinset).card = u.interests.length := by
      rw [Finset.inter_self]
      exact List.toFinset_card_of_nodup hnodup
    have hcast : (0 : ℝ) < (u.interests.length : ℝ) := by
      exact_mod_cast Nat.pos_of_ne_zero hlen
    rw [hcard, Nat.max_self, calculate_distance_self]
    rw [div_self (ne_of_gt hcast)]
    rw [max_eq_right (by norm_num : (0:ℝ) ≤ 1 - 0 / 5),
      max_eq_right (by norm_num : (0:ℝ) ≤ 1 - |(p : ℝ) - (p : ℝ)| / 2)]
    rw [show (0.4 * 1 + 0.3 * (1 - 0 / 5) + 0.3 * (1 - |(p : ℝ) - (p : ℝ)| / 2)) * 100 = 100 by
      rw [sub_self, abs_zero]
      norm_num]
    exact round2_hundred

/-- Witness for the amended C8 at a concrete user. -/
theorem C8_witness :
    ∃ c, calculate_user_compatibility uA uA = some c ∧
      c.shared_interests = uA.interests.toFinset ∧
      c.distance_km = 0 ∧
      (uA.interests.Nodup → c.score = 100) :=
  C8_selfcompat_amended uA (by decide) ⟨2, by decide⟩

/-- C4: when the per-venue loop body succeeds, the attached
`interested_users` are exactly the first five of the stable descending
sort of the retained candidates — the other users whose
interest-in-this-venue signal exceeds 0.3 and whose compatibility score
exceeds 40 (`retainedSpec`, stated from the spec's words) — the
attached list is sorted descending by score and has `min 5 |retained|`
elements, while the appended reason counts only `min 3 |retained|`
(the claimed 3-vs-5 asymmetry), and no such reason appears when
nothing is retained. -/
theorem C4_interested_users_selection :
    ∀ (u : User) (venue : Venue) (users : List User) (rec : VenueRecommendation),
    venueRec u users venue = some rec →
    rec.interested_users = ((retainedSpec u venue users).mergeSort scoreDescB).take 5 ∧
    rec.interested_users.Pairwise (fun a b => b.score ≤ a.score) ∧
    rec.interested_users.length = min 5 (retainedSpec u venue users).length ∧
    (retainedSpec u venue users ≠ [] →
      Reason.friendsInterested (min 3 (retainedSpec u venue users).length) ∈ rec.reasons) ∧
    (retainedSpec u venue users = [] →
      ∀ k, Reason.friendsInterested k ∉ rec.reasons) := by
  intro u venue users rec h
  rcases venueRec_inv h with ⟨interested, hint, heq⟩
  have his : interested = retainedSpec u venue users :=
    interestedLoop_eq_retainedSpec u venue users interested hint
  rw [his] at heq
  rw [heq]
  refine ⟨rfl, ?_, ?_, ?_, ?_⟩
  · exact List.Pairwise.sublist (List.take_sublist _ _)
      (mergeSort_sorted_desc (retainedSpec u venue users))
  · show (((retainedSpec u venue users).mergeSort scoreDescB).take 5).length = _
    rw [List.length_take, List.length_mergeSort]
  · intro hne
    have hSne : (retainedSpec u venue users).mergeSort scoreDescB ≠ [] := by
      intro h0
      apply hne
      have hl := congrArg List.length h0
      rw [List.length_mergeSort] at hl
      exact List.length_eq_zero.mp hl
    have hmem := venueReasons_friends_mem u venue hSne
    rw [List.length_take, List.length_mergeSort] at hmem
    exact hmem
  · intro h0 k
    show Reason.friendsInterested k ∉
      venueReasons u venue ((retainedSpec u venue users).mergeSort scoreDescB)
    rw [h0, List.mergeSort_nil]
    exact venueReasons_no_friends u venue k

/-- Witness for C4 at a concrete input where one user is retained. -/
theorem C4_witness :
    ∃ rec, venueRec uA [uA, uB] vX = some rec ∧
      (rec.interested_users = ((retainedSpec uA vX [uA, uB]).mergeSort scoreDescB).take 5 ∧
       rec.interested_users.Pairwise (fun a b => b.score ≤ a.score) ∧
       rec.interested_users.length = min 5 (retainedSpec uA vX [uA, uB]).length ∧
       (retainedSpec uA vX [uA, uB] ≠ [] →
         Reason.friendsInterested (min 3 (retainedSpec uA vX [uA, uB]).length) ∈ rec.reasons) ∧
       (retainedSpec uA vX [uA, uB] = [] →
         ∀ k, Reason.friendsInterested k ∉ rec.reasons)) :=
  ⟨recW, venueRec_eval, C4_interested_users_selection uA vX [uA, uB] recW venueRec_eval⟩

/-- C1: each venue's score is the 2-decimal rounding of the sum of the
four weighted components (proximity, interest overlap, price fit,
implicit interest), and on the spec's concrete scenario the distance is
below 0.1 km and the total score is ≈76.25 (within 1, the slack the
"proximity ≈ 25" reading of a sub-0.1-km distance allows; the exact
value is `round2 (76.25 - 25 * d / 3)` for the actual distance `d`). -/
theorem C1_venue_score_formula :
    (∀ (u : User) (us : List User) (venue : Venue) (rec : VenueRecommendation),
      venueRec u us venue = some rec →
      rec.score = round2 (
        25 * max 0 (1 - calculate_distance u.latitude u.longitude
          venue.latitude venue.longitude / 3) +
        35 * (if u.interests = [] then 0
          else ((u.interests.toFinset ∩ venue.tags.toFinset).card : ℝ) / u.interests.length) +
        (if venue.price_range = u.preferred_price_range then 15 else 0) +
        (match u.viewing_history venue.id with
         | some seconds_viewed => 25 * min 1 (seconds_viewed / 60)
         | none => 0))) ∧
    (∃ rec, venueRec specUser [] specVenue = some rec ∧
      calculate_distance specUser.latitude specUser.longitude
        specVenue.latitude specVenue.longitude < 0.1 ∧
      rec.score = round2 (25 * max 0 (1 - calculate_distance specUser.latitude
        specUser.longitude specVenue.latitude specVenue.longitude / 3) + 51.25) ∧
      |rec.score - 76.25| < 1) := by
  constructor
  · intro u us venue rec h
    rcases venueRec_inv h with ⟨interested, _, heq⟩
    rw [heq]
    rfl
  · refine ⟨_, venueRec_nil_users specUser specVenue, specDistance_lt, ?_, ?_⟩
    · show round2 (venueBaseScore specUser specVenue) = _
      rw [venueBaseScore_spec]
    show |round2 (venueBaseScore specUser specVenue) - 76.25| < 1
    rw [venueBaseScore_spec]
    have hd0 : 0 ≤ calculate_distance specUser.latitude specUser.longitude
        specVenue.latitude specVenue.longitude :=
      calculate_distance_nonneg _ _ _ _
    have hdlt : calculate_distance specUser.latitude specUser.longitude
        specVenue.latitude specVenue.longitude < 0.1 := specDistance_lt
    rw [max_eq_right (by linarith : (0:ℝ) ≤ 1 - calculate_distance specUser.latitude
      specUser.longitude specVenue.latitude specVenue.longitude / 3)]
    have hb := round2_sub_bounds (25 * (1 - calculate_distance specUser.latitude
      specUser.longitude specVenue.latitude specVenue.longitude / 3) + 51.25)
    rw [abs_lt]
    constructor <;> linarith [hb.1, hb.2]

/-- Witness for the C1 formula at a concrete input. -/
theorem C1_witness :
    ∃ rec, venueRec uA [uA, uB] vX = some rec ∧
      rec.score = round2 (
        25 * max 0 (1 - calculate_distance uA.latitude uA.longitude
          vX.latitude vX.longitude / 3) +
        35 * (if uA.interests = [] then 0
          else ((uA.interests.toFinset ∩ vX.tags.toFinset).card : ℝ) / uA.interests.length) +
        (if vX.price_range = uA.preferred_price_range then 15 else 0) +
        (match uA.viewing_history vX.id with
         | some seconds_viewed => 25 * min 1 (seconds_viewed / 60)
         | none => 0)) :=
  ⟨recW, venueRec_eval, C1_venue_score_formula.1 uA [uA, uB] vX recW venueRec_eval⟩
